import Mathlib

/-!
Shallow embedding of `src/main.py` (eco-routing demo) and proofs about it.

The Python program computes with IEEE-754 binary64 floating point.  All
numeric values occurring in any run of the program lie well inside the
normal range of binary64, so a double is modelled by the exact rational it
denotes, and every arithmetic operation is modelled as the exact rational
operation followed by correct rounding to 53 significant bits (round to
nearest, ties to even) with unbounded exponent range.  Overflow, underflow,
infinities and NaNs never arise for the program's values and are not
modelled.  Python exceptions are modelled with `Except`: each `try` block
body is a `..._body` function returning `Except PyErr _`, and the
surrounding handler is a separate function that catches exactly the
exception classes the Python `except` clause names and re-raises the rest.
The program's two random draws (`random.uniform(0, 0.2)` and
`random.choice([True, False])`) are taken as input parameters.

Some arithmetic operations on `Rat` are `@[irreducible]` in the library;
that attribute only hides their definitions from unfolding and is reverted
locally so that concrete values can be computed by `decide`.
-/

attribute [local semireducible] Rat.mul Rat.inv Rat.add Rat.sub

set_option maxRecDepth 40000

namespace EcoRouting

/-- Round a rational to the nearest integer, ties to even
(the IEEE-754 default tie-breaking rule). -/
def iround (s : ℚ) : ℤ :=
  if s - (⌊s⌋ : ℚ) < 1/2 then ⌊s⌋
  else if 1/2 < s - (⌊s⌋ : ℚ) then ⌊s⌋ + 1
  else if ⌊s⌋ % 2 = 0 then ⌊s⌋ else ⌊s⌋ + 1

/-- Fuel-driven binary logarithm on `ℕ` (structural recursion on the fuel,
so that it evaluates by `decide`).  With fuel at least `n` it computes
`⌊log₂ n⌋` for `n ≥ 1`. -/
def log2fuel : ℕ → ℕ → ℕ
  | 0, _ => 0
  | fuel + 1, n => if n ≤ 1 then 0 else log2fuel fuel (n / 2) + 1

/-- `⌊log₂ n⌋` for `n ≥ 1` (and `0` at `0`). -/
def log2q (n : ℕ) : ℕ := log2fuel n n

/-- First approximation of `⌊log₂ q⌋` for a positive rational, exact or one
too high. -/
def elog0 (q : ℚ) : ℤ :=
  (log2q q.num.natAbs : ℤ) - (log2q q.den : ℤ)

/-- Floor of the base-2 logarithm of a positive rational: the unique `e`
with `2 ^ e ≤ q < 2 ^ (e + 1)`. -/
def elog (q : ℚ) : ℤ :=
  if q < 2 ^ elog0 q then elog0 q - 1 else elog0 q

/-- Correct rounding of an exact rational to IEEE-754 binary64: 53
significant bits, round to nearest, ties to even, unbounded exponent range
(see the module comment). -/
def fpRound (q : ℚ) : ℚ :=
  if q = 0 then 0
  else if 0 < q then
    (iround (q * 2 ^ (52 - elog q)) : ℚ) * 2 ^ (elog q - 52)
  else
    -((iround (-q * 2 ^ (52 - elog (-q))) : ℚ) * 2 ^ (elog (-q) - 52))

/-- binary64 division: exact quotient, correctly rounded. -/
def fpDiv (a b : ℚ) : ℚ := fpRound (a / b)

/-- binary64 multiplication: exact product, correctly rounded. -/
def fpMul (a b : ℚ) : ℚ := fpRound (a * b)

/-- A route entry of the traffic snapshot: route identifier, `distance_km`,
`traffic_condition`.  A Python dict iterates its entries in insertion
order, so the snapshot is modelled as the list of its entries in that
order. -/
abbrev RouteEntry := String × ℚ × ℚ

/-- A traffic snapshot: `dict` from route identifier to
`distance_km` / `traffic_condition`, in insertion order. -/
abbrev Snapshot := List RouteEntry

/-- `MOCK_TRAFFIC_DATA` from `src/main.py`.  The distances are Python
`int`s; the traffic multipliers are the binary64 values of the literals
`1.2`, `1.0` and `1.5`. -/
def MOCK_TRAFFIC_DATA : Snapshot :=
  [("route_1", 10, fpRound (6/5)),
   ("route_2", 12, fpRound 1),
   ("route_3", 8, fpRound (3/2))]

/-- The Python exception values raised or raisable in `src/main.py`:
`ConnectionError("...")`, `ValueError("...")`, and the `TypeError` that
formatting `None` with `:.2f` would raise. -/
inductive PyErr where
  | connectionError (msg : String)
  | valueError (msg : String)
  | typeError (msg : String)
deriving DecidableEq

deriving instance DecidableEq for Except

/-- `str(e)` for the exceptions above: the message. -/
def PyErr.msg : PyErr → String
  | .connectionError m => m
  | .valueError m => m
  | .typeError m => m

/-- The binary64 value of the literal `0.15` that
`fetch_real_time_traffic_data` compares the simulated network delay
against. -/
def fetchTimeoutLimit : ℚ := fpRound (3/20)

/-- The `try` block of `fetch_real_time_traffic_data` in `src/main.py`:
raises `ConnectionError("Network timeout.")` when
`network_delay >= 0.15`, otherwise either returns `MOCK_TRAFFIC_DATA` or
raises `ValueError("Failed to fetch traffic data.")` according to
`random.choice([True, False])`. -/
def fetch_body (network_delay : ℚ) (choice : Bool) : Except PyErr Snapshot :=
  if fetchTimeoutLimit ≤ network_delay then
    .error (.connectionError "Network timeout.")
  else if choice then
    .ok MOCK_TRAFFIC_DATA
  else
    .error (.valueError "Failed to fetch traffic data.")

/-- `fetch_real_time_traffic_data` from `src/main.py`: the `try` body
wrapped by `except (ConnectionError, ValueError) as e`, which prints
`f"Error fetching traffic data: ..."` and returns `None`.  Exception
classes not named by the handler would propagate (none can arise here).
The result pairs the returned value with the lines printed. -/
def fetch_real_time_traffic_data (network_delay : ℚ) (choice : Bool) :
    Except PyErr (Option Snapshot × List String) :=
  match fetch_body network_delay choice with
  | .ok data => .ok (some data, [])
  | .error (.connectionError m) =>
      .ok (none, ["Error fetching traffic data: " ++ m])
  | .error (.valueError m) =>
      .ok (none, ["Error fetching traffic data: " ++ m])
  | .error e => .error e

/-- `calculate_fuel_efficiency` from `src/main.py`:
`(distance_km / 100) * base_fuel_efficiency * traffic_condition` with
`base_fuel_efficiency = 7.0`, evaluated in binary64 (Python `/` on numbers
is float division; `*` is left associative). -/
def calculate_fuel_efficiency (distance_km traffic_condition : ℚ) : ℚ :=
  fpMul (fpMul (fpDiv distance_km 100) 7) traffic_condition

/-- The consumption the selector computes for one snapshot entry. -/
def routeConsumption (e : RouteEntry) : ℚ :=
  calculate_fuel_efficiency e.2.1 e.2.2

/-- The value `find_most_efficient_route` returns: `(best_route,
min_fuel_consumption)`, each possibly `None`. -/
abbrev SelectionResult := Option String × Option ℚ

/-- One iteration of the loop in `find_most_efficient_route`.
`min_fuel_consumption` starts as `float('inf')`, modelled by `none` in the
second accumulator component; every computed consumption is finite, so
`fuel_consumption < float('inf')` is always true, which is the `none`
branch below. -/
def selectStep (acc : SelectionResult) (e : RouteEntry) : SelectionResult :=
  let fuel_consumption := routeConsumption e
  match acc.2 with
  | none => (some e.1, some fuel_consumption)
  | some m =>
      if fuel_consumption < m then (some e.1, some fuel_consumption) else acc

/-- The `try` block of `find_most_efficient_route` in `src/main.py`:
`if not traffic_data` (true for `None` and for an empty dict) raises
`ValueError("Traffic data is not available.")`; otherwise runs the loop
and returns `(best_route, min_fuel_consumption)`. -/
def find_body (traffic_data : Option Snapshot) : Except PyErr SelectionResult :=
  match traffic_data with
  | none => .error (.valueError "Traffic data is not available.")
  | some l =>
      if l.isEmpty then .error (.valueError "Traffic data is not available.")
      else .ok (l.foldl selectStep (none, none))

/-- `find_most_efficient_route` from `src/main.py`: the `try` body wrapped
by `except ValueError as e`, which prints `f"Error in finding route: ..."`
and returns `(None, None)`.  Any other exception class would propagate
(none can arise here).  The result pairs the returned value with the lines
printed. -/
def find_most_efficient_route (traffic_data : Option Snapshot) :
    Except PyErr (SelectionResult × List String) :=
  match find_body traffic_data with
  | .ok r => .ok (r, [])
  | .error (.valueError m) =>
      .ok ((none, none), ["Error in finding route: " ++ m])
  | .error e => .error e

/-- Decimal digits of `n`, most significant first, by structural recursion
on a fuel argument (`n` itself is enough fuel). -/
def natDigitsFuel : ℕ → ℕ → List Char
  | 0, _ => []
  | fuel + 1, n =>
      if n = 0 then [] else natDigitsFuel fuel (n / 10) ++ [Nat.digitChar (n % 10)]

/-- Decimal rendering of a natural number, as Python renders the integer
part of a float. -/
def natStr (n : ℕ) : String :=
  if n = 0 then "0" else String.mk (natDigitsFuel n n)

/-- Python `f"{x:.2f}"` on a (finite) double `x`: the exact value of the
double is rounded to 2 fractional decimal digits (round to nearest, ties
to even) and rendered with exactly two digits after the point. -/
def format2f (q : ℚ) : String :=
  let k := (iround (|q| * 100)).toNat
  (if q < 0 then "-" else "") ++
    natStr (k / 100) ++ "." ++
    String.mk [Nat.digitChar (k / 10 % 10), Nat.digitChar (k % 10)]

/-- `main` from `src/main.py`, as a function of the two random draws.  It
returns the full list of lines printed to standard output, in order; a
`TypeError` would escape `main` (and crash the process) if the `:.2f`
formatting were ever applied to `None`. -/
def main (network_delay : ℚ) (choice : Bool) : Except PyErr (List String) := do
  let (traffic_data, fetchLog) ← fetch_real_time_traffic_data network_delay choice
  let ((best_route, fuel_consumption), findLog) ←
    find_most_efficient_route traffic_data
  let finalLine ←
    match best_route with
    | some b =>
        if b = "" then
          pure "Could not determine the most efficient route due to errors."
        else
          match fuel_consumption with
          | some f =>
              pure ("The most fuel-efficient route is " ++ b ++
                " with a fuel consumption of " ++ format2f f ++ " liters.")
          | none =>
              Except.error (.typeError
                "unsupported format string passed to NoneType.__format__")
    | none => pure "Could not determine the most efficient route due to errors."
  pure (["Fetching real-time traffic data..."] ++ fetchLog ++
    ["Calculating the most efficient route..."] ++ findLog ++ [finalLine])

/-- The process exit status: `0` when `main` returns normally, nonzero when
an exception escapes it. -/
def exitCode (network_delay : ℚ) (choice : Bool) : ℕ :=
  match main network_delay choice with
  | .ok _ => 0
  | .error _ => 1

/-- The complete stdout transcript of a successful run (the fetch neither
timed out nor failed): see `main_eval_cases`. -/
def outputSuccess : List String :=
  ["Fetching real-time traffic data...",
   "Calculating the most efficient route...",
   "The most fuel-efficient route is route_2 with a fuel consumption of 0.84 liters."]

/-- The complete stdout transcript of a run whose fetch timed out. -/
def outputTimeout : List String :=
  ["Fetching real-time traffic data...",
   "Error fetching traffic data: Network timeout.",
   "Calculating the most efficient route...",
   "Error in finding route: Traffic data is not available.",
   "Could not determine the most efficient route due to errors."]

/-- The complete stdout transcript of a run whose fetch hit the simulated
API failure. -/
def outputUnavailable : List String :=
  ["Fetching real-time traffic data...",
   "Error fetching traffic data: Failed to fetch traffic data.",
   "Calculating the most efficient route...",
   "Error in finding route: Traffic data is not available.",
   "Could not determine the most efficient route due to errors."]

-- Sanity checks of the binary64 model against the exact values CPython
-- computes for the same expressions (doubles written as exact fractions).
example : fpRound (1/10) = 3602879701896397 / 36028797018963968 := by decide
example : fpRound (6/5) = 5404319552844595 / 4503599627370496 := by decide
example : fpRound (3/2) = 3/2 := by decide
example : fpRound (3/20) = 5404319552844595 / 36028797018963968 := by decide
example : calculate_fuel_efficiency 10 (fpRound (6/5)) =
    3783023686991217 / 4503599627370496 := by decide
example : calculate_fuel_efficiency 12 (fpRound 1) =
    7566047373982433 / 9007199254740992 := by decide
example : calculate_fuel_efficiency 8 (fpRound (3/2)) =
    3783023686991217 / 4503599627370496 := by decide
example : calculate_fuel_efficiency 10 (fpRound 1) =
    6305039478318695 / 9007199254740992 := by decide
example : format2f (7566047373982433 / 9007199254740992) = "0.84" := by decide
example : format2f (fpRound (7/10)) = "0.70" := by decide
example : find_most_efficient_route (some MOCK_TRAFFIC_DATA) =
    .ok ((some "route_2", some (7566047373982433 / 9007199254740992)), []) := by
  decide

/-! ### Correctness of the binary64 rounding model -/

theorem log2fuel_correct : ∀ (fuel n : ℕ), 1 ≤ n → n ≤ fuel →
    2 ^ log2fuel fuel n ≤ n ∧ n < 2 ^ (log2fuel fuel n + 1) := by
  intro fuel
  induction fuel with
  | zero => intro n h1 h2; omega
  | succ f ih =>
    intro n h1 h2
    simp only [log2fuel]
    by_cases hn1 : n ≤ 1
    · have hne : n = 1 := by omega
      subst hne
      norm_num
    · rw [if_neg hn1]
      obtain ⟨ha, hb⟩ := ih (n / 2) (by omega) (by omega)
      have hp : 2 ^ (log2fuel f (n / 2) + 1) = 2 * 2 ^ log2fuel f (n / 2) := by
        rw [pow_succ]; ring
      have hp2 : 2 ^ (log2fuel f (n / 2) + 1 + 1) = 2 * 2 ^ (log2fuel f (n / 2) + 1) := by
        rw [pow_succ _ (log2fuel f (n / 2) + 1)]; ring
      exact ⟨by omega, by omega⟩

theorem log2q_correct (n : ℕ) (hn : 1 ≤ n) :
    2 ^ log2q n ≤ n ∧ n < 2 ^ (log2q n + 1) :=
  log2fuel_correct n n hn le_rfl

theorem elog0_correct {q : ℚ} (hq : 0 < q) :
    (2:ℚ) ^ (elog0 q - 1) < q ∧ q < 2 ^ (elog0 q + 1) := by
  have hnum : 0 < q.num := Rat.num_pos.2 hq
  have ha1 : 1 ≤ q.num.natAbs := by omega
  have hb1 : 1 ≤ q.den := q.den_pos
  obtain ⟨hA1, hA2⟩ := log2q_correct _ ha1
  obtain ⟨hB1, hB2⟩ := log2q_correct _ hb1
  set c := log2q q.num.natAbs with hc
  set d := log2q q.den with hd
  have hnum_eq : ((q.num.natAbs : ℤ) : ℚ) = ((q.num : ℚ)) := by
    rw [Int.natAbs_of_nonneg hnum.le]
  have haq : ((q.num.natAbs : ℚ)) = q * (q.den : ℚ) := by
    have h0 : ((q.num.natAbs : ℚ)) = ((q.num : ℚ)) := by
      rw [← hnum_eq]
      exact (Int.cast_natCast _).symm
    rw [h0, Rat.mul_den_eq_num]
  have hA1' : (2:ℚ) ^ c ≤ (q.num.natAbs : ℚ) := by exact_mod_cast hA1
  have hA2' : ((q.num.natAbs : ℚ)) < 2 ^ c * 2 := by
    rw [show (2:ℚ) ^ c * 2 = 2 ^ (c + 1) from (pow_succ 2 c).symm]
    exact_mod_cast hA2
  have hB1' : (2:ℚ) ^ d ≤ (q.den : ℚ) := by exact_mod_cast hB1
  have hB2' : ((q.den : ℚ)) < 2 ^ d * 2 := by
    rw [show (2:ℚ) ^ d * 2 = 2 ^ (d + 1) from (pow_succ 2 d).symm]
    exact_mod_cast hB2
  have he0 : elog0 q = (c : ℤ) - d := rfl
  have hz1 : (2:ℚ) ^ (elog0 q - 1) = 2 ^ c / (2 ^ d * 2) := by
    rw [he0, show ((c : ℤ) - d - 1) = (c : ℤ) - ((d : ℤ) + 1) by ring,
      zpow_sub₀ two_ne_zero, zpow_add₀ two_ne_zero, zpow_natCast, zpow_natCast, zpow_one]
  have hz2 : (2:ℚ) ^ (elog0 q + 1) = 2 ^ c * 2 / 2 ^ d := by
    rw [he0, show ((c : ℤ) - d + 1) = ((c : ℤ) + 1) - (d : ℤ) by ring,
      zpow_sub₀ two_ne_zero, zpow_add₀ two_ne_zero, zpow_natCast, zpow_natCast, zpow_one]
  constructor
  · rw [hz1, div_lt_iff₀ (by positivity)]
    calc (2:ℚ) ^ c ≤ (q.num.natAbs : ℚ) := hA1'
      _ = q * (q.den : ℚ) := haq
      _ < q * (2 ^ d * 2) := mul_lt_mul_of_pos_left hB2' hq
  · rw [hz2, lt_div_iff₀ (by positivity)]
    calc q * (2:ℚ) ^ d ≤ q * (q.den : ℚ) := mul_le_mul_of_nonneg_left hB1' hq.le
      _ = (q.num.natAbs : ℚ) := haq.symm
      _ < 2 ^ c * 2 := hA2'

theorem elog_correct {q : ℚ} (hq : 0 < q) :
    (2:ℚ) ^ elog q ≤ q ∧ q < 2 ^ (elog q + 1) := by
  obtain ⟨hlow, hhigh⟩ := elog0_correct hq
  rw [elog]
  split_ifs with hsplit
  · exact ⟨hlow.le, by rwa [sub_add_cancel]⟩
  · exact ⟨not_lt.1 hsplit, hhigh⟩

theorem elog_mono {x y : ℚ} (hx : 0 < x) (hxy : x ≤ y) : elog x ≤ elog y := by
  have h1 := (elog_correct hx).1
  have h2 := (elog_correct (hx.trans_le hxy)).2
  have h3 : (2:ℚ) ^ elog x < 2 ^ (elog y + 1) := lt_of_le_of_lt (h1.trans hxy) h2
  have h4 := (zpow_lt_zpow_iff_right₀ (one_lt_two (α := ℚ))).1 h3
  omega

theorem iround_bounds (s : ℚ) : ⌊s⌋ ≤ iround s ∧ iround s ≤ ⌊s⌋ + 1 := by
  rw [iround]
  split_ifs <;> omega

theorem iround_mono {s t : ℚ} (h : s ≤ t) : iround s ≤ iround t := by
  have hfm : ⌊s⌋ ≤ ⌊t⌋ := Int.floor_le_floor h
  rcases lt_or_eq_of_le hfm with hlt | heq
  · have h1 := (iround_bounds s).2
    have h2 := (iround_bounds t).1
    omega
  · rw [iround, iround, ← heq]
    split_ifs <;> first
      | omega
      | (exfalso; linarith)

theorem iround_close (s : ℚ) : |(iround s : ℚ) - s| ≤ 1/2 := by
  have h1 : (⌊s⌋ : ℚ) ≤ s := Int.floor_le s
  have h2 : s < ⌊s⌋ + 1 := Int.lt_floor_add_one s
  rw [iround]
  split_ifs with ha hb hc <;>
    (rw [abs_le]; constructor <;> (push_cast; linarith))

theorem fpRound_zero : fpRound 0 = 0 := by
  rw [fpRound, if_pos rfl]

theorem fpRound_eq_pos {q : ℚ} (hq : 0 < q) :
    fpRound q = (iround (q * 2 ^ (52 - elog q)) : ℚ) * 2 ^ (elog q - 52) := by
  rw [fpRound, if_neg hq.ne', if_pos hq]

theorem fpRound_scaled_bounds {q : ℚ} (hq : 0 < q) :
    (2:ℚ) ^ (52 : ℕ) ≤ q * 2 ^ (52 - elog q) ∧ q * 2 ^ (52 - elog q) < 2 ^ (53 : ℕ) := by
  obtain ⟨h1, h2⟩ := elog_correct hq
  have hp : (0:ℚ) < 2 ^ (52 - elog q) := zpow_pos two_pos _
  have hid52 : (2:ℚ) ^ elog q * 2 ^ (52 - elog q) = 2 ^ (52 : ℕ) := by
    rw [← zpow_natCast (2:ℚ) 52, ← zpow_add₀ two_ne_zero]
    congr 1
    push_cast
    ring
  have hid53 : (2:ℚ) ^ (elog q + 1) * 2 ^ (52 - elog q) = 2 ^ (53 : ℕ) := by
    rw [← zpow_natCast (2:ℚ) 53, ← zpow_add₀ two_ne_zero]
    congr 1
    push_cast
    ring
  constructor
  · rw [← hid52]
    exact mul_le_mul_of_nonneg_right h1 hp.le
  · rw [← hid53]
    exact mul_lt_mul_of_pos_right h2 hp

theorem fpRound_bounds {q : ℚ} (hq : 0 < q) :
    (2:ℚ) ^ elog q ≤ fpRound q ∧ fpRound q ≤ 2 ^ (elog q + 1) := by
  rw [fpRound_eq_pos hq]
  obtain ⟨hs1, hs2⟩ := fpRound_scaled_bounds hq
  set s := q * 2 ^ (52 - elog q) with hsdef
  have hfl : ((2:ℤ) ^ (52 : ℕ)) ≤ ⌊s⌋ := by
    rw [Int.le_floor]
    exact_mod_cast hs1
  have hfu : ⌊s⌋ < (2:ℤ) ^ (53 : ℕ) := by
    rw [Int.floor_lt]
    exact_mod_cast hs2
  obtain ⟨hb1, hb2⟩ := iround_bounds s
  have hlo : ((2:ℤ) ^ (52 : ℕ)) ≤ iround s := by omega
  have hhi : iround s ≤ (2:ℤ) ^ (53 : ℕ) := by omega
  have hp : (0:ℚ) < 2 ^ (elog q - 52) := zpow_pos two_pos _
  have hid52 : (2:ℚ) ^ (52 : ℕ) * 2 ^ (elog q - 52) = 2 ^ elog q := by
    rw [← zpow_natCast (2:ℚ) 52, ← zpow_add₀ two_ne_zero]
    congr 1
    push_cast
    ring
  have hid53 : (2:ℚ) ^ (53 : ℕ) * 2 ^ (elog q - 52) = 2 ^ (elog q + 1) := by
    rw [← zpow_natCast (2:ℚ) 53, ← zpow_add₀ two_ne_zero]
    congr 1
    push_cast
    ring
  constructor
  · rw [← hid52]
    exact mul_le_mul_of_nonneg_right (by exact_mod_cast hlo) hp.le
  · rw [← hid53]
    exact mul_le_mul_of_nonneg_right (by exact_mod_cast hhi) hp.le

theorem fpRound_nonneg {q : ℚ} (hq : 0 ≤ q) : 0 ≤ fpRound q := by
  rcases hq.eq_or_lt with h0 | h0
  · rw [← h0, fpRound_zero]
  · exact le_trans (zpow_pos two_pos (elog q)).le (fpRound_bounds h0).1

theorem fpRound_mono {x y : ℚ} (hx : 0 ≤ x) (hxy : x ≤ y) : fpRound x ≤ fpRound y := by
  rcases hx.eq_or_lt with h0 | h0
  · rw [← h0, fpRound_zero]
    exact fpRound_nonneg (hx.trans hxy)
  · have hy : 0 < y := h0.trans_le hxy
    have hee : elog x ≤ elog y := elog_mono h0 hxy
    rcases eq_or_lt_of_le hee with he | he
    · rw [fpRound_eq_pos h0, fpRound_eq_pos hy, ← he]
      refine mul_le_mul_of_nonneg_right ?_ (zpow_pos two_pos _).le
      exact_mod_cast
        iround_mono (mul_le_mul_of_nonneg_right hxy (zpow_pos two_pos (52 - elog x)).le)
    · calc fpRound x ≤ 2 ^ (elog x + 1) := (fpRound_bounds h0).2
        _ ≤ 2 ^ elog y := zpow_le_zpow_right₀ one_le_two (by omega)
        _ ≤ fpRound y := (fpRound_bounds hy).1

theorem fpRound_between {q : ℚ} (hq : 0 ≤ q) :
    q * (1 - 1/2^53) ≤ fpRound q ∧ fpRound q ≤ q * (1 + 1/2^53) := by
  rcases hq.eq_or_lt with h0 | h0
  · rw [← h0, fpRound_zero]
    norm_num
  · rw [fpRound_eq_pos h0]
    obtain ⟨hs1, _⟩ := fpRound_scaled_bounds h0
    set s := q * 2 ^ (52 - elog q) with hsdef
    have hq2 : q = s * 2 ^ (elog q - 52) := by
      rw [hsdef, mul_assoc, ← zpow_add₀ two_ne_zero,
        show (52 - elog q) + (elog q - 52) = 0 by ring, zpow_zero, mul_one]
    have hs := iround_close s
    rw [abs_le] at hs
    have hsu : (1:ℚ)/2 ≤ s * (1/2^53) := by
      calc (1:ℚ)/2 = 2 ^ (52 : ℕ) * (1/2^53) := by norm_num
        _ ≤ s * (1/2^53) := mul_le_mul_of_nonneg_right hs1 (by positivity)
    have hp : (0:ℚ) < 2 ^ (elog q - 52) := zpow_pos two_pos _
    constructor
    · have H : s * (1 - 1/2^53) ≤ (iround s : ℚ) := by linarith [hs.1]
      calc q * (1 - 1/2^53) = s * (1 - 1/2^53) * 2 ^ (elog q - 52) := by
            conv_lhs => rw [hq2]
            ring
        _ ≤ (iround s : ℚ) * 2 ^ (elog q - 52) := mul_le_mul_of_nonneg_right H hp.le
    · have H : (iround s : ℚ) ≤ s * (1 + 1/2^53) := by linarith [hs.2]
      calc (iround s : ℚ) * 2 ^ (elog q - 52) ≤ s * (1 + 1/2^53) * 2 ^ (elog q - 52) :=
            mul_le_mul_of_nonneg_right H hp.le
        _ = q * (1 + 1/2^53) := by
            conv_rhs => rw [hq2]
            ring

theorem fpMul_nonneg {a b : ℚ} (ha : 0 ≤ a) (hb : 0 ≤ b) : 0 ≤ fpMul a b :=
  fpRound_nonneg (mul_nonneg ha hb)

theorem fpMul_mono {a b a' b' : ℚ} (ha : 0 ≤ a) (hb : 0 ≤ b)
    (ha' : a ≤ a') (hb' : b ≤ b') : fpMul a b ≤ fpMul a' b' :=
  fpRound_mono (mul_nonneg ha hb) (mul_le_mul ha' hb' hb (ha.trans ha'))

/-! ### The selection loop -/

theorem selectStep_none (a : Option String) (e : RouteEntry) :
    selectStep (a, none) e = (some e.1, some (routeConsumption e)) := rfl

theorem selectStep_some (r : String) (c : ℚ) (e : RouteEntry) :
    selectStep (some r, some c) e =
      if routeConsumption e < c then (some e.1, some (routeConsumption e))
      else (some r, some c) := rfl

theorem foldl_selectStep_keep (l : Snapshot) (r : String) (c : ℚ)
    (h : ∀ e ∈ l, c ≤ routeConsumption e) :
    l.foldl selectStep (some r, some c) = (some r, some c) := by
  induction l with
  | nil => rfl
  | cons e t ih =>
    have hce : c ≤ routeConsumption e := h e (List.mem_cons_self e t)
    rw [List.foldl_cons, selectStep_some, if_neg (not_lt.2 hce)]
    exact ih fun x hx => h x (List.mem_cons_of_mem e hx)

theorem foldl_selectStep_some_some (l : Snapshot) (r : String) (c : ℚ) :
    ∃ s q, l.foldl selectStep (some r, some c) = (some s, some q) := by
  induction l generalizing r c with
  | nil => exact ⟨r, c, rfl⟩
  | cons e t ih =>
    rw [List.foldl_cons, selectStep_some]
    split_ifs
    · exact ih e.1 (routeConsumption e)
    · exact ih r c

theorem foldl_selectStep_find (l : Snapshot) :
    ∀ (i : ℕ) (hi : i < l.length) (r : String) (c : ℚ),
      routeConsumption (l.get ⟨i, hi⟩) < c →
      (∀ j (hj : j < l.length),
        routeConsumption (l.get ⟨i, hi⟩) ≤ routeConsumption (l.get ⟨j, hj⟩)) →
      (∀ j (hj : j < l.length), j < i →
        routeConsumption (l.get ⟨i, hi⟩) < routeConsumption (l.get ⟨j, hj⟩)) →
      l.foldl selectStep (some r, some c) =
        (some (l.get ⟨i, hi⟩).1, some (routeConsumption (l.get ⟨i, hi⟩))) := by
  induction l with
  | nil => intro i hi; exact absurd hi (by simp)
  | cons e t ih =>
    intro i hi r c hlt hglob hfirst
    rw [List.foldl_cons, selectStep_some]
    cases i with
    | zero =>
      rw [if_pos (show routeConsumption e < c from hlt)]
      exact foldl_selectStep_keep t e.1 (routeConsumption e) fun x hx => by
        obtain ⟨⟨j, hj⟩, rfl⟩ := List.mem_iff_get.1 hx
        exact hglob (j + 1) (Nat.succ_lt_succ hj)
    | succ i' =>
      have hi' : i' < t.length := Nat.lt_of_succ_lt_succ hi
      by_cases hec : routeConsumption e < c
      · rw [if_pos hec]
        exact ih i' hi' e.1 (routeConsumption e)
          (hfirst 0 (Nat.succ_pos _) (Nat.succ_pos _))
          (fun j hj => hglob (j + 1) (Nat.succ_lt_succ hj))
          (fun j hj hji => hfirst (j + 1) (Nat.succ_lt_succ hj) (Nat.succ_lt_succ hji))
      · rw [if_neg hec]
        exact ih i' hi' r c hlt
          (fun j hj => hglob (j + 1) (Nat.succ_lt_succ hj))
          (fun j hj hji => hfirst (j + 1) (Nat.succ_lt_succ hj) (Nat.succ_lt_succ hji))

theorem exists_first_argmin (l : Snapshot) (h : l ≠ []) :
    ∃ (i : ℕ) (hi : i < l.length),
      (∀ j (hj : j < l.length),
        routeConsumption (l.get ⟨i, hi⟩) ≤ routeConsumption (l.get ⟨j, hj⟩)) ∧
      (∀ j (hj : j < l.length), j < i →
        routeConsumption (l.get ⟨i, hi⟩) < routeConsumption (l.get ⟨j, hj⟩)) := by
  induction l with
  | nil => exact absurd rfl h
  | cons e t ih =>
    rcases eq_or_ne t [] with ht | htne
    · subst ht
      refine ⟨0, Nat.succ_pos _, ?_, ?_⟩
      · intro j hj
        have hj1 : j < 1 := by simpa using hj
        have hj0 : j = 0 := by omega
        subst hj0
        exact le_refl _
      · intro j hj hji
        exact absurd hji (Nat.not_lt_zero j)
    · obtain ⟨i', hi', hg, hf⟩ := ih htne
      by_cases hle : routeConsumption e ≤ routeConsumption (t.get ⟨i', hi'⟩)
      · refine ⟨0, Nat.succ_pos _, ?_, ?_⟩
        · intro j hj
          cases j with
          | zero => exact le_refl _
          | succ j' => exact hle.trans (hg j' (Nat.lt_of_succ_lt_succ hj))
        · intro j hj hji
          exact absurd hji (Nat.not_lt_zero j)
      · push_neg at hle
        refine ⟨i' + 1, Nat.succ_lt_succ hi', ?_, ?_⟩
        · intro j hj
          cases j with
          | zero => exact hle.le
          | succ j' => exact hg j' (Nat.lt_of_succ_lt_succ hj)
        · intro j hj hji
          cases j with
          | zero => exact hle
          | succ j' =>
            exact hf j' (Nat.lt_of_succ_lt_succ hj) (Nat.lt_of_succ_lt_succ hji)

/-! ### Evaluation of the traffic source and the driver -/

theorem fetch_eval_timeout {network_delay : ℚ} (choice : Bool)
    (h : fetchTimeoutLimit ≤ network_delay) :
    fetch_real_time_traffic_data network_delay choice =
      .ok (none, ["Error fetching traffic data: Network timeout."]) := by
  rw [fetch_real_time_traffic_data, fetch_body, if_pos h]
  rfl

theorem fetch_eval_ok {network_delay : ℚ} (h : ¬ fetchTimeoutLimit ≤ network_delay) :
    fetch_real_time_traffic_data network_delay true =
      .ok (some MOCK_TRAFFIC_DATA, []) := by
  rw [fetch_real_time_traffic_data, fetch_body, if_neg h, if_pos rfl]

theorem fetch_eval_unavailable {network_delay : ℚ}
    (h : ¬ fetchTimeoutLimit ≤ network_delay) :
    fetch_real_time_traffic_data network_delay false =
      .ok (none, ["Error fetching traffic data: Failed to fetch traffic data."]) := by
  rw [fetch_real_time_traffic_data, fetch_body, if_neg h, if_neg Bool.false_ne_true]
  rfl

theorem main_eval_cases (network_delay : ℚ) (choice : Bool) :
    main network_delay choice = .ok outputTimeout ∨
    main network_delay choice = .ok outputUnavailable ∨
    main network_delay choice = .ok outputSuccess := by
  by_cases h : fetchTimeoutLimit ≤ network_delay
  · left
    rw [main, fetch_eval_timeout choice h]
    decide
  · cases choice
    · right; left
      rw [main, fetch_eval_unavailable h]
      decide
    · right; right
      rw [main, fetch_eval_ok h]
      decide

/-! ### Claim theorems -/

/-- C1: for every non-empty traffic snapshot, `find_most_efficient_route`
returns (without raising, printing nothing) the identifier and consumption
of the entry whose computed consumption is minimal among all entries, and
on ties the first entry in iteration (insertion) order wins: every earlier
entry has strictly larger consumption. -/
theorem find_most_efficient_route_first_argmin (l : Snapshot) (h : l ≠ []) :
    ∃ (i : ℕ) (hi : i < l.length),
      find_most_efficient_route (some l) =
        .ok ((some (l.get ⟨i, hi⟩).1, some (routeConsumption (l.get ⟨i, hi⟩))), []) ∧
      (∀ j (hj : j < l.length),
        routeConsumption (l.get ⟨i, hi⟩) ≤ routeConsumption (l.get ⟨j, hj⟩)) ∧
      (∀ j (hj : j < l.length), j < i →
        routeConsumption (l.get ⟨i, hi⟩) < routeConsumption (l.get ⟨j, hj⟩)) := by
  cases l with
  | nil => exact absurd rfl h
  | cons e t =>
    obtain ⟨i, hi, hg, hf⟩ := exists_first_argmin (e :: t) h
    refine ⟨i, hi, ?_, hg, hf⟩
    have hfold : t.foldl selectStep (some e.1, some (routeConsumption e)) =
        (some ((e :: t).get ⟨i, hi⟩).1,
          some (routeConsumption ((e :: t).get ⟨i, hi⟩))) := by
      cases i with
      | zero =>
        exact foldl_selectStep_keep t e.1 (routeConsumption e) fun x hx => by
          obtain ⟨⟨j, hj⟩, rfl⟩ := List.mem_iff_get.1 hx
          exact hg (j + 1) (Nat.succ_lt_succ hj)
      | succ i' =>
        have hi' : i' < t.length := Nat.lt_of_succ_lt_succ hi
        exact foldl_selectStep_find t i' hi' e.1 (routeConsumption e)
          (hf 0 (Nat.succ_pos _) (Nat.succ_pos _))
          (fun j hj => hg (j + 1) (Nat.succ_lt_succ hj))
          (fun j hj hji => hf (j + 1) (Nat.succ_lt_succ hj) (Nat.succ_lt_succ hji))
    have hred : find_most_efficient_route (some (e :: t)) =
        .ok ((e :: t).foldl selectStep (none, none), []) := rfl
    rw [hred, List.foldl_cons, selectStep_none, hfold]

/-- C1 witness: the theorem applied to the program's own mock snapshot. -/
theorem find_most_efficient_route_first_argmin_witness :
    ∃ (i : ℕ) (hi : i < MOCK_TRAFFIC_DATA.length),
      find_most_efficient_route (some MOCK_TRAFFIC_DATA) =
        .ok ((some (MOCK_TRAFFIC_DATA.get ⟨i, hi⟩).1,
          some (routeConsumption (MOCK_TRAFFIC_DATA.get ⟨i, hi⟩))), []) ∧
      (∀ j (hj : j < MOCK_TRAFFIC_DATA.length),
        routeConsumption (MOCK_TRAFFIC_DATA.get ⟨i, hi⟩) ≤
          routeConsumption (MOCK_TRAFFIC_DATA.get ⟨j, hj⟩)) ∧
      (∀ j (hj : j < MOCK_TRAFFIC_DATA.length), j < i →
        routeConsumption (MOCK_TRAFFIC_DATA.get ⟨i, hi⟩) <
          routeConsumption (MOCK_TRAFFIC_DATA.get ⟨j, hj⟩)) :=
  find_most_efficient_route_first_argmin MOCK_TRAFFIC_DATA (by decide)

/-- C2 counterexample: at distance `10` and multiplier `1.0` (non-negative
distance, positive multiplier) the estimator does not return exactly
`(10 / 100) * 7.0 * 1.0 = 0.7`: binary64 evaluation returns the double
`0.7000000000000001`. -/
theorem calculate_fuel_efficiency_not_exact :
    0 ≤ (10:ℚ) ∧ 0 < (1:ℚ) ∧
      calculate_fuel_efficiency 10 1 ≠ 10 / 100 * 7 * 1 :=
  ⟨by norm_num, by norm_num, by decide⟩

/-- C2 (amended): for non-negative distance and positive multiplier the
estimator is deterministic (equal inputs give equal outputs), and it
returns the binary64 (round-to-nearest) evaluation of
`(d / 100) * 7.0 * m`, which is within relative error `2 ^ (-50)` of the
exact rational value `d / 100 * 7 * m` but in general not equal to it. -/
theorem calculate_fuel_efficiency_correctly_rounded (d m : ℚ)
    (hd : 0 ≤ d) (hm : 0 < m) :
    (∀ d' m', d' = d → m' = m →
      calculate_fuel_efficiency d' m' = calculate_fuel_efficiency d m) ∧
    |calculate_fuel_efficiency d m - d / 100 * 7 * m| ≤
      d / 100 * 7 * m * (1/2^50) := by
  refine ⟨fun d' m' hd' hm' => by rw [hd', hm'], ?_⟩
  simp only [calculate_fuel_efficiency, fpMul, fpDiv]
  have hx0 : (0:ℚ) ≤ d / 100 := div_nonneg hd (by norm_num)
  obtain ⟨h1l, h1u⟩ := fpRound_between hx0
  have hn1 : 0 ≤ fpRound (d / 100) := fpRound_nonneg hx0
  have hy1 : (0:ℚ) ≤ fpRound (d / 100) * 7 := mul_nonneg hn1 (by norm_num)
  obtain ⟨h2l, h2u⟩ := fpRound_between hy1
  have hn2 : 0 ≤ fpRound (fpRound (d / 100) * 7) := fpRound_nonneg hy1
  have hy2 : (0:ℚ) ≤ fpRound (fpRound (d / 100) * 7) * m := mul_nonneg hn2 hm.le
  obtain ⟨h3l, h3u⟩ := fpRound_between hy2
  set x1 := fpRound (d / 100) with hx1def
  set x2 := fpRound (x1 * 7) with hx2def
  set x3 := fpRound (x2 * m) with hx3def
  have hE : (0:ℚ) ≤ d / 100 * 7 * m :=
    mul_nonneg (mul_nonneg hx0 (by norm_num)) hm.le
  -- upper bound
  have s1 : x1 * 7 ≤ d / 100 * (1 + 1/2^53) * 7 :=
    mul_le_mul_of_nonneg_right h1u (by norm_num)
  have s2 : x1 * 7 * (1 + 1/2^53) ≤ d / 100 * (1 + 1/2^53) * 7 * (1 + 1/2^53) :=
    mul_le_mul_of_nonneg_right s1 (by norm_num)
  have up2 : x2 ≤ d / 100 * (1 + 1/2^53) * 7 * (1 + 1/2^53) := h2u.trans s2
  have s3 : x2 * m ≤ d / 100 * (1 + 1/2^53) * 7 * (1 + 1/2^53) * m :=
    mul_le_mul_of_nonneg_right up2 hm.le
  have s4 : x2 * m * (1 + 1/2^53) ≤
      d / 100 * (1 + 1/2^53) * 7 * (1 + 1/2^53) * m * (1 + 1/2^53) :=
    mul_le_mul_of_nonneg_right s3 (by norm_num)
  have up3 : x3 ≤ d / 100 * (1 + 1/2^53) * 7 * (1 + 1/2^53) * m * (1 + 1/2^53) :=
    h3u.trans s4
  have hcu : ((1:ℚ) + 1/2^53) * (1 + 1/2^53) * (1 + 1/2^53) ≤ 1 + 1/2^50 := by
    norm_num
  have key_up : d / 100 * (1 + 1/2^53) * 7 * (1 + 1/2^53) * m * (1 + 1/2^53) ≤
      d / 100 * 7 * m + d / 100 * 7 * m * (1/2^50) := by
    calc d / 100 * (1 + 1/2^53) * 7 * (1 + 1/2^53) * m * (1 + 1/2^53)
        = d / 100 * 7 * m * ((1 + 1/2^53) * (1 + 1/2^53) * (1 + 1/2^53)) := by ring
      _ ≤ d / 100 * 7 * m * (1 + 1/2^50) := mul_le_mul_of_nonneg_left hcu hE
      _ = d / 100 * 7 * m + d / 100 * 7 * m * (1/2^50) := by ring
  -- lower bound
  have t1 : d / 100 * (1 - 1/2^53) * 7 ≤ x1 * 7 :=
    mul_le_mul_of_nonneg_right h1l (by norm_num)
  have t2 : d / 100 * (1 - 1/2^53) * 7 * (1 - 1/2^53) ≤ x1 * 7 * (1 - 1/2^53) :=
    mul_le_mul_of_nonneg_right t1 (by norm_num)
  have dn2 : d / 100 * (1 - 1/2^53) * 7 * (1 - 1/2^53) ≤ x2 := t2.trans h2l
  have t3 : d / 100 * (1 - 1/2^53) * 7 * (1 - 1/2^53) * m ≤ x2 * m :=
    mul_le_mul_of_nonneg_right dn2 hm.le
  have t4 : d / 100 * (1 - 1/2^53) * 7 * (1 - 1/2^53) * m * (1 - 1/2^53) ≤
      x2 * m * (1 - 1/2^53) :=
    mul_le_mul_of_nonneg_right t3 (by norm_num)
  have dn3 : d / 100 * (1 - 1/2^53) * 7 * (1 - 1/2^53) * m * (1 - 1/2^53) ≤ x3 :=
    t4.trans h3l
  have hcd : (1:ℚ) - 1/2^50 ≤ (1 - 1/2^53) * (1 - 1/2^53) * (1 - 1/2^53) := by
    norm_num
  have key_dn : d / 100 * 7 * m - d / 100 * 7 * m * (1/2^50) ≤
      d / 100 * (1 - 1/2^53) * 7 * (1 - 1/2^53) * m * (1 - 1/2^53) := by
    calc d / 100 * 7 * m - d / 100 * 7 * m * (1/2^50)
        = d / 100 * 7 * m * (1 - 1/2^50) := by ring
      _ ≤ d / 100 * 7 * m * ((1 - 1/2^53) * (1 - 1/2^53) * (1 - 1/2^53)) :=
          mul_le_mul_of_nonneg_left hcd hE
      _ = d / 100 * (1 - 1/2^53) * 7 * (1 - 1/2^53) * m * (1 - 1/2^53) := by ring
  rw [abs_le]
  exact ⟨by linarith, by linarith⟩

/-- C2 witness: the amended bound evaluated at distance `10`,
multiplier `1`. -/
theorem calculate_fuel_efficiency_correctly_rounded_witness :
    0 ≤ (10:ℚ) ∧ 0 < (1:ℚ) ∧
    |calculate_fuel_efficiency 10 1 - 10 / 100 * 7 * 1| ≤
      10 / 100 * 7 * 1 * (1/2^50) :=
  ⟨by norm_num, by norm_num,
    (calculate_fuel_efficiency_correctly_rounded 10 1 (by norm_num) (by norm_num)).2⟩

/-- C3: on an absent (`None`) or empty snapshot the route selector catches
the `ValueError` it raised, prints the diagnostic, and returns the absent
result `(None, None)` instead of propagating a failure. -/
theorem find_route_absent_or_empty :
    find_most_efficient_route none =
      .ok ((none, none), ["Error in finding route: Traffic data is not available."]) ∧
    find_most_efficient_route (some []) =
      .ok ((none, none), ["Error in finding route: Traffic data is not available."]) :=
  ⟨rfl, rfl⟩

/-- C4 counterexample: on the program's mock data the consumption computed
for `route_1` is not `0.84` (it is the double `0.8400000000000001`), and
the selector returns `route_2`, not the first entry `route_1`. -/
theorem mock_consumptions_not_all_equal :
    calculate_fuel_efficiency 10 (fpRound (6/5)) ≠ 84/100 ∧
    calculate_fuel_efficiency 10 (fpRound (6/5)) ≠
      calculate_fuel_efficiency 12 (fpRound 1) ∧
    find_most_efficient_route (some MOCK_TRAFFIC_DATA) =
      .ok ((some "route_2", some (7566047373982433 / 9007199254740992)), []) :=
  ⟨by decide, by decide, by decide⟩

/-- C4 (amended): in binary64 arithmetic the three mock consumptions are
`0.8400000000000001`, `0.84`, `0.8400000000000001` (given here as exact
dyadic rationals) — not all equal; `route_2` has the strictly smallest
computed consumption, so the selector returns `route_2` with the double
`0.84`, which still formats as `"0.84"`. -/
theorem mock_selector_returns_route_2 :
    routeConsumption ("route_1", 10, fpRound (6/5)) =
      3783023686991217 / 4503599627370496 ∧
    routeConsumption ("route_2", 12, fpRound 1) =
      7566047373982433 / 9007199254740992 ∧
    routeConsumption ("route_3", 8, fpRound (3/2)) =
      3783023686991217 / 4503599627370496 ∧
    find_most_efficient_route (some MOCK_TRAFFIC_DATA) =
      .ok ((some "route_2", some (7566047373982433 / 9007199254740992)), []) ∧
    format2f (7566047373982433 / 9007199254740992) = "0.84" :=
  ⟨by decide, by decide, by decide, by decide, by decide⟩

/-- C5: the estimator returns `0` at distance `0` for every multiplier, and
is monotonically non-decreasing in both arguments on non-negative inputs
(this holds even in binary64 arithmetic because correct rounding is
monotone). -/
theorem estimator_zero_and_monotone :
    (∀ m : ℚ, calculate_fuel_efficiency 0 m = 0) ∧
    (∀ d1 d2 m1 m2 : ℚ, 0 ≤ d1 → d1 ≤ d2 → 0 ≤ m1 → m1 ≤ m2 →
      calculate_fuel_efficiency d1 m1 ≤ calculate_fuel_efficiency d2 m2) := by
  constructor
  · intro m
    show fpMul (fpMul (fpDiv 0 100) 7) m = 0
    simp only [fpDiv, fpMul, zero_div, fpRound_zero, zero_mul]
  · intro d1 d2 m1 m2 hd1 hd hm1 hm
    show fpMul (fpMul (fpDiv d1 100) 7) m1 ≤ fpMul (fpMul (fpDiv d2 100) 7) m2
    have h0a : (0:ℚ) ≤ d1 / 100 := div_nonneg hd1 (by norm_num)
    have h1 : fpDiv d1 100 ≤ fpDiv d2 100 := fpRound_mono h0a (by linarith)
    have hx1 : 0 ≤ fpDiv d1 100 := fpRound_nonneg h0a
    have h2 : fpMul (fpDiv d1 100) 7 ≤ fpMul (fpDiv d2 100) 7 :=
      fpMul_mono hx1 (by norm_num) h1 le_rfl
    have hx2 : 0 ≤ fpMul (fpDiv d1 100) 7 := fpMul_nonneg hx1 (by norm_num)
    exact fpMul_mono hx2 hm1 h2 hm

/-- C5 witness: the zero law at multiplier `3` and monotonicity from
`(10, 1.0)` to `(12, 1.2)`. -/
theorem estimator_zero_and_monotone_witness :
    calculate_fuel_efficiency 0 3 = 0 ∧
    (0 ≤ (10:ℚ) ∧ (10:ℚ) ≤ 12 ∧ 0 ≤ fpRound 1 ∧ fpRound 1 ≤ fpRound (6/5)) ∧
    calculate_fuel_efficiency 10 (fpRound 1) ≤
      calculate_fuel_efficiency 12 (fpRound (6/5)) :=
  ⟨estimator_zero_and_monotone.1 3,
   ⟨by norm_num, by norm_num, by decide, by decide⟩,
   estimator_zero_and_monotone.2 10 12 (fpRound 1) (fpRound (6/5))
     (by norm_num) (by norm_num) (by decide) (by decide)⟩

/-- C6 counterexample: at a simulated delay exactly equal to the threshold
(the double `0.15`) the traffic source raises the timeout, although the
delay does not strictly exceed the threshold. -/
theorem fetch_times_out_at_exact_limit :
    fetch_body fetchTimeoutLimit true = .error (.connectionError "Network timeout.") ∧
    ¬ fetchTimeoutLimit > fetchTimeoutLimit := by
  constructor
  · rw [fetch_body, if_pos le_rfl]
  · exact lt_irrefl _

/-- C6 (amended): the traffic source body raises the `Timeout` condition
exactly when the simulated delay is greater than or equal to the fixed
threshold (`network_delay >= 0.15` in the source); for a delay strictly
below the threshold the timeout branch is not taken. -/
theorem fetch_timeout_iff_limit_le (network_delay : ℚ) (choice : Bool) :
    (∃ msg, fetch_body network_delay choice = .error (.connectionError msg)) ↔
      fetchTimeoutLimit ≤ network_delay := by
  rw [fetch_body]
  by_cases h : fetchTimeoutLimit ≤ network_delay
  · rw [if_pos h]
    exact ⟨fun _ => h, fun _ => ⟨"Network timeout.", rfl⟩⟩
  · rw [if_neg h]
    constructor
    · rintro ⟨msg, hmsg⟩
      cases choice
      · rw [if_neg Bool.false_ne_true] at hmsg
        simp at hmsg
      · rw [if_pos rfl] at hmsg
        simp at hmsg
    · intro hcontra
      exact absurd hcontra h

/-- C7: for every outcome of the simulated randomness the traffic source
either succeeds with the complete mock snapshot and prints nothing, or
catches its failure (timeout or data-unavailable), prints one diagnostic
line, and returns an absent snapshot; no exception escapes it. -/
theorem fetch_failures_caught (network_delay : ℚ) (choice : Bool) :
    fetch_real_time_traffic_data network_delay choice =
      .ok (some MOCK_TRAFFIC_DATA, []) ∨
    ∃ msg, fetch_real_time_traffic_data network_delay choice =
      .ok (none, ["Error fetching traffic data: " ++ msg]) := by
  by_cases h : fetchTimeoutLimit ≤ network_delay
  · exact Or.inr ⟨"Network timeout.", fetch_eval_timeout choice h⟩
  · cases choice
    · exact Or.inr ⟨"Failed to fetch traffic data.", fetch_eval_unavailable h⟩
    · exact Or.inl (fetch_eval_ok h)

/-- C8: for every outcome of the simulated randomness `main` returns
normally (no exception reaches the driver) and the process exit status
is `0`. -/
theorem program_always_exits_zero (network_delay : ℚ) (choice : Bool) :
    (∃ lines, main network_delay choice = .ok lines) ∧
      exitCode network_delay choice = 0 := by
  rcases main_eval_cases network_delay choice with h | h | h <;>
    exact ⟨⟨_, h⟩, by rw [exitCode, h]⟩

/-- C9: every run prints one of three transcripts, each containing the two
progress lines followed (after any interleaved diagnostics) by either the
success line with the chosen route and its consumption rendered with
exactly two fractional digits, or the fixed failure line; and `0.7`
renders as `"0.70"`. -/
theorem driver_output_shapes (network_delay : ℚ) (choice : Bool) :
    (main network_delay choice = .ok outputTimeout ∨
     main network_delay choice = .ok outputUnavailable ∨
     main network_delay choice = .ok outputSuccess) ∧
    format2f (fpRound (7/10)) = "0.70" :=
  ⟨main_eval_cases network_delay choice, by decide⟩

/-- C10: whatever the input snapshot, the pair `find_most_efficient_route`
returns is all-or-nothing: both components present or both absent. -/
theorem find_route_all_or_nothing (traffic_data : Option Snapshot) :
    ∃ r logs, find_most_efficient_route traffic_data = .ok (r, logs) ∧
      ((r.1 = none ∧ r.2 = none) ∨ ∃ s q, r.1 = some s ∧ r.2 = some q) := by
  match traffic_data with
  | none =>
      exact ⟨(none, none),
        ["Error in finding route: Traffic data is not available."],
        rfl, Or.inl ⟨rfl, rfl⟩⟩
  | some [] =>
      exact ⟨(none, none),
        ["Error in finding route: Traffic data is not available."],
        rfl, Or.inl ⟨rfl, rfl⟩⟩
  | some (e :: t) =>
      obtain ⟨s, q, hfold⟩ := foldl_selectStep_some_some t e.1 (routeConsumption e)
      refine ⟨(some s, some q), [], ?_, Or.inr ⟨s, q, rfl, rfl⟩⟩
      have hred : find_most_efficient_route (some (e :: t)) =
          .ok ((e :: t).foldl selectStep (none, none), []) := rfl
      rw [hred, List.foldl_cons, selectStep_none, hfold]

end EcoRouting
